import Mathlib

/-!
# Cart operations of the storefront backend

A shallow embedding of the cart code of `src/index.js` (the in-memory cart and
its HTTP handlers, the M-Pesa payload) and of `src/cart.js` (the cart kept in a
Mongoose collection), followed by the properties proved about them.

Modelling conventions
* A cart line is the object `{ id, name, price, quantity }`.  Identifiers and
  names are strings; `price` and `quantity` are integers.  `+=` on a quantity
  is the addition of JavaScript numbers, `jsAdd`: the exact sum rounded to the
  nearest number with a 53-bit significand, ties to even.  It is the integer
  sum whenever that sum is at most 2^53 in absolute value.  Sums of magnitude
  2^1024 and more, which JavaScript turns into `Infinity`, are not integers and
  are outside the model.
* The module-level variable `cart` is passed explicitly: every operation takes
  the current cart and gives back its return value together with the new cart.
* `cart.find(...)` hands out a reference to the first matching object, and an
  assignment through that reference changes the array element in place; this
  is `mutateFirst`.
* An HTTP answer is its status code and its JSON body.
* In `cart.js` the collection is the list of its records in insertion order;
  a record found by `findOne` is known by its position.  `save` first
  validates the record against `cartSchema` and throws when it does not pass;
  otherwise it writes the record, back at its position or at the end.  The
  database itself does not fail.
* A name that is bound nowhere throws a `ReferenceError` when it is evaluated.
-/

namespace CartBackend

/-- A cart line, the object `{ id, name, price, quantity }`. -/
structure CartLine where
  id : String
  name : String
  price : Int
  quantity : Int
deriving DecidableEq

/-- The cart array of `index.js`. -/
abbrev Cart := List CartLine

/-- Assignment through the reference returned by `Array.prototype.find`: the
first element satisfying `p` is replaced by `f` of it, in place. -/
def mutateFirst (p : CartLine → Bool) (f : CartLine → CartLine) : List CartLine → List CartLine
  | [] => []
  | x :: xs => if p x then f x :: xs else x :: mutateFirst p f xs

/-- For a magnitude `m`, the number of low binary digits that do not fit in a
53-bit significand: the least `e` with `m < 2 ^ (53 + e)`, searched from `e`
upwards.  The greatest exponent of a finite number is 971. -/
def lowBits (m : Nat) : Nat → Nat → Nat
  | 0, e => e
  | fuel + 1, e => if m < 2 ^ (53 + e) then e else lowBits m fuel (e + 1)

/-- The JavaScript number nearest to the integer `n`: its magnitude is rounded
to a multiple of `2 ^ e` with a 53-bit quotient, to the nearest one and to the
even quotient on a tie. -/
def roundToDouble (n : Int) : Int :=
  let m := n.natAbs
  let e := lowBits m 971 0
  let q := m / 2 ^ e
  let r := m % 2 ^ e
  let q1 := if 2 ^ e < 2 * r ∨ (2 * r = 2 ^ e ∧ q % 2 = 1) then q + 1 else q
  Int.sign n * ((q1 * 2 ^ e : Nat) : Int)

/-- The operator `+` of JavaScript on two integer numbers: the exact sum,
correctly rounded. -/
def jsAdd (a b : Int) : Int :=
  roundToDouble (a + b)

/-- JSON body of an answer: a cart, or an object with a `message`. -/
inductive Body where
  | cart (c : Cart)
  | message (m : String)
deriving DecidableEq

/-- An HTTP answer `res.status(status).json(body)`. -/
structure Response where
  status : Nat
  body : Body
deriving DecidableEq

/-! ## `src/index.js`: the in-memory cart -/

namespace Index

/-- `addItem` of `index.js` (lines 197-205): returned cart and new cart. -/
def addItem (cart : Cart) (id name : String) (price quantity : Int) : Cart × Cart :=
  match cart.find? (fun item => item.id == id) with
  | some _ =>
    let cart1 := mutateFirst (fun item => item.id == id)
      (fun existingItem =>
        { existingItem with quantity := jsAdd existingItem.quantity quantity }) cart
    (cart1, cart1)
  | none =>
    let cart1 := cart ++ [{ id := id, name := name, price := price, quantity := quantity }]
    (cart1, cart1)

/-- `removeItem` of `index.js` (lines 207-210): returned cart and new cart. -/
def removeItem (cart : Cart) (id : String) : Cart × Cart :=
  let cart1 := cart.filter (fun item => item.id != id)
  (cart1, cart1)

/-- `updateItemQuantity` of `index.js` (lines 212-220): the returned value
(`none` is JavaScript `null`) and the new cart. -/
def updateItemQuantity (cart : Cart) (id : String) (quantity : Int) : Option Cart × Cart :=
  match cart.find? (fun item => item.id == id) with
  | some _ =>
    let cart1 := mutateFirst (fun item => item.id == id)
      (fun item => { item with quantity := quantity }) cart
    (some cart1, cart1)
  | none => (none, cart)

/-- `getCart` of `index.js` (lines 222-224): returned cart and new cart. -/
def getCart (cart : Cart) : Cart × Cart :=
  (cart, cart)

/-- Handler of `POST /api/cart/add` (lines 286-290). -/
def postCartAdd (cart : Cart) (id name : String) (price quantity : Int) : Response × Cart :=
  let r := addItem cart id name price quantity
  ({ status := 200, body := Body.cart r.1 }, r.2)

/-- Handler of `DELETE /api/cart/remove/:id` (lines 293-297). -/
def deleteCartRemove (cart : Cart) (id : String) : Response × Cart :=
  let r := removeItem cart id
  ({ status := 200, body := Body.cart r.1 }, r.2)

/-- Handler of `PUT /api/cart/update/:id` (lines 300-309); an array is truthy,
`null` is not. -/
def putCartUpdate (cart : Cart) (id : String) (quantity : Int) : Response × Cart :=
  let r := updateItemQuantity cart id quantity
  match r.1 with
  | some updatedCart => ({ status := 200, body := Body.cart updatedCart }, r.2)
  | none => ({ status := 404, body := Body.message "Item not found in cart" }, r.2)

/-- Handler of `GET /cart` (lines 312-315). -/
def getCartHandler (cart : Cart) : Response × Cart :=
  let r := getCart cart
  ({ status := 200, body := Body.cart r.1 }, r.2)

/-- A call of one of the four cart operations. -/
inductive Op where
  | addItem (id name : String) (price quantity : Int)
  | removeItem (id : String)
  | updateItemQuantity (id : String) (quantity : Int)
  | getCart

/-- The cart after one call. -/
def step (cart : Cart) : Op → Cart
  | Op.addItem id name price quantity => (addItem cart id name price quantity).2
  | Op.removeItem id => (removeItem cart id).2
  | Op.updateItemQuantity id quantity => (updateItemQuantity cart id quantity).2
  | Op.getCart => (getCart cart).2

/-- The cart after a sequence of calls, starting from `let cart = []`. -/
def run (ops : List Op) : Cart :=
  ops.foldl step []

/-- The object `payload` of `index.js` (lines 325-337). -/
structure Payload where
  businessShortCode : String
  transactionType : String
  amount : String
  partyA : String
  partyB : String
  callBackURL : String
  accountReference : String
  phoneNumber : String
  baseUri : String
  passKey : Option String
  transactionDesc : String
deriving DecidableEq

/-- The constant `payload`, built once at start-up; `passKey` is the
environment variable `MPESA_PASS_KEY`. -/
def payload (passKey : Option String) : Payload :=
  { businessShortCode := "174379"
    transactionType := "CustomerPayBillOnline"
    amount := "100"
    partyA := "254712345678"
    partyB := "174379"
    callBackURL := "https://sandbox.safaricom.co.ke/sandbox/vuwa/rest/MPESA/stkpush/checkbalance"
    accountReference := "payment"
    phoneNumber := "254712345678"
    baseUri := "https://sandbox.safaricom.co.ke"
    passKey := passKey
    transactionDesc := "Meal Booking" }

/-- The names bound where the body of a handler runs: the `const` and `let`
declarations of `index.js` (lines 2-14, 195-222, 325, 371) and the handler's
own parameters.  The globals of the runtime come on top; `Mpesa` is not one
of them. -/
def scope : List String :=
  ["mongoose", "express", "bcrypt", "jwt", "Category", "User", "Product", "paypal", "mpesa",
    "logger", "app", "cart", "addItem", "removeItem", "updateItemQuantity", "getCart",
    "payload", "PORT", "req", "res"]

/-- What a run of the `/mpesa/payments` handler does towards the provider. -/
inductive MpesaOutcome where
  | handedOver (request : Payload)
  | threw (error : String)
deriving DecidableEq

/-- Handler of `POST /mpesa/payments` (lines 340-350), the first one
registered for the route.  Its body evaluates `Mpesa.lipaNaMpesaOnline(payload)`:
the name `Mpesa` is looked up first, and the call, with the constant `payload`,
is made only if it is bound.  The cart is not read.  A handler that throws is
answered by the framework with status 500, and the second handler of the
route, whose body is empty like that of `/paypal/payments`, is not run. -/
def postMpesaPayments (_cart : Cart) (passKey : Option String) : MpesaOutcome :=
  if "Mpesa" ∈ scope then MpesaOutcome.handedOver (payload passKey)
  else MpesaOutcome.threw "ReferenceError: Mpesa is not defined"

/-- The total of the specification, the sum of `unitPrice × quantity` over the
lines; `index.js` has no counterpart of it. -/
def specTotal (cart : Cart) : Int :=
  (cart.map (fun l => l.price * l.quantity)).sum

end Index

/-! ## `src/cart.js`: the cart in a Mongoose collection -/

namespace CartJs

/-- The `Cart` collection: its records in insertion order. -/
abbrev Collection := List CartLine

/-- `Cart.findOne({ id })`: the first record with that `id` and its position. -/
def findOne (id : String) : Collection → Option (Nat × CartLine)
  | [] => none
  | d :: ds =>
    if d.id == id then some (0, d)
    else (findOne id ds).map (fun r => (r.1 + 1, r.2))

/-- Validation against `cartSchema` (lines 3-20): `id` and `name` are required
strings, and the required validator of a string path rejects the empty string;
`price` and `quantity` are required numbers and are always present here. -/
def validate (doc : CartLine) : Bool :=
  doc.id != "" && doc.name != ""

/-- How an `async` function of `cart.js` ends: with a value, or with the error
it caught and threw again. -/
inductive Result (α : Type) where
  | returned (value : α)
  | thrown (error : String)
deriving DecidableEq

/-- `save()` on a record obtained from the collection: the collection after
it, or the validation error. -/
def saveExisting (coll : Collection) (pos : Nat) (doc : CartLine) : Result Collection :=
  if validate doc then Result.returned (coll.set pos doc)
  else Result.thrown "ValidationError"

/-- `save()` on a record made by `new Cart(...)`: the collection after it, or
the validation error. -/
def saveNew (coll : Collection) (doc : CartLine) : Result Collection :=
  if validate doc then Result.returned (coll ++ [doc])
  else Result.thrown "ValidationError"

/-- `Cart.findOneAndDelete({ id })`: the first record with that `id` is deleted. -/
def findOneAndDelete (coll : Collection) (id : String) : Collection :=
  coll.eraseP (fun d => d.id == id)

/-- `addItem` of `cart.js` (lines 24-38): the returned record or the error
thrown, and the new collection. -/
def addItem (coll : Collection) (id name : String) (price quantity : Int) :
    Result CartLine × Collection :=
  match findOne id coll with
  | some (pos, cartItem) =>
    let cartItem1 := { cartItem with quantity := jsAdd cartItem.quantity quantity }
    match saveExisting coll pos cartItem1 with
    | Result.returned coll1 => (Result.returned cartItem1, coll1)
    | Result.thrown error => (Result.thrown error, coll)
  | none =>
    let cartItem1 : CartLine := { id := id, name := name, price := price, quantity := quantity }
    match saveNew coll cartItem1 with
    | Result.returned coll1 => (Result.returned cartItem1, coll1)
    | Result.thrown error => (Result.thrown error, coll)

/-- `removeItem` of `cart.js` (lines 40-46): the new collection. -/
def removeItem (coll : Collection) (id : String) : Collection :=
  findOneAndDelete coll id

/-- `updateItemQuantity` of `cart.js` (lines 48-61): the returned record
(`none` is `null`) or the error thrown, and the new collection. -/
def updateItemQuantity (coll : Collection) (id : String) (quantity : Int) :
    Result (Option CartLine) × Collection :=
  match findOne id coll with
  | some (pos, cartItem) =>
    let cartItem1 := { cartItem with quantity := quantity }
    match saveExisting coll pos cartItem1 with
    | Result.returned coll1 => (Result.returned (some cartItem1), coll1)
    | Result.thrown error => (Result.thrown error, coll)
  | none => (Result.returned none, coll)

/-- `getCart` of `cart.js` (lines 63-70): returned records and new collection. -/
def getCart (coll : Collection) : List CartLine × Collection :=
  (coll, coll)

end CartJs

/-! ## Auxiliary facts -/

theorem lowBits_of_lt (m fuel e : Nat) (h : m < 2 ^ (53 + e)) :
    lowBits m (fuel + 1) e = e := by
  simp [lowBits, h]

theorem roundToDouble_exact (n : Int) (h : n.natAbs ≤ 2 ^ 53) : roundToDouble n = n := by
  have key : (if 2 ^ (lowBits n.natAbs 971 0) < 2 * (n.natAbs % 2 ^ (lowBits n.natAbs 971 0)) ∨
      (2 * (n.natAbs % 2 ^ (lowBits n.natAbs 971 0)) = 2 ^ (lowBits n.natAbs 971 0) ∧
        n.natAbs / 2 ^ (lowBits n.natAbs 971 0) % 2 = 1)
      then n.natAbs / 2 ^ (lowBits n.natAbs 971 0) + 1
      else n.natAbs / 2 ^ (lowBits n.natAbs 971 0)) * 2 ^ (lowBits n.natAbs 971 0) =
        n.natAbs := by
    rcases Nat.lt_or_ge n.natAbs (2 ^ 53) with hlt | hge
    · have he : lowBits n.natAbs 971 0 = 0 := lowBits_of_lt n.natAbs 970 0 hlt
      simp [he, Nat.mod_one]
    · have hm : n.natAbs = 2 ^ 53 := le_antisymm h hge
      rw [hm]
      decide
  unfold roundToDouble
  simp only [key]
  exact Int.sign_mul_natAbs n

theorem jsAdd_exact (a b : Int) (h : (a + b).natAbs ≤ 2 ^ 53) : jsAdd a b = a + b :=
  roundToDouble_exact (a + b) h

theorem find?_absent (cart : Cart) (i : String) (h : ∀ l ∈ cart, l.id ≠ i) :
    cart.find? (fun item => item.id == i) = none := by
  rw [List.find?_eq_none]
  intro x hx
  simpa using h x hx

theorem find?_present (cart : Cart) (i : String) (h : ∃ l ∈ cart, l.id = i) :
    ∃ x, cart.find? (fun item => item.id == i) = some x := by
  obtain ⟨l, hl, hi⟩ := h
  cases hf : cart.find? (fun item => item.id == i) with
  | some x => exact ⟨x, rfl⟩
  | none =>
    rw [List.find?_eq_none] at hf
    exact absurd (by simpa using hi) (hf l hl)

theorem mutateFirst_absent (p : CartLine → Bool) (f : CartLine → CartLine) (l : List CartLine)
    (h : ∀ x ∈ l, p x = false) : mutateFirst p f l = l := by
  induction l with
  | nil => rfl
  | cons x xs ih =>
    have hx : p x = false := h x (List.mem_cons_self x xs)
    have hxs : ∀ y ∈ xs, p y = false := fun y hy => h y (List.mem_cons_of_mem x hy)
    simp [mutateFirst, hx, ih hxs]

theorem mutateFirst_map_id (p : CartLine → Bool) (f : CartLine → CartLine)
    (hf : ∀ x, (f x).id = x.id) (l : List CartLine) :
    (mutateFirst p f l).map CartLine.id = l.map CartLine.id := by
  induction l with
  | nil => rfl
  | cons x xs ih =>
    by_cases hx : p x = true
    · simp [mutateFirst, hx, hf]
    · simp [mutateFirst, hx, ih]

theorem mutateFirst_split (p : CartLine → Bool) (f : CartLine → CartLine) (l : List CartLine)
    (h : ∃ x ∈ l, p x = true) :
    ∃ pre x post, l = pre ++ x :: post ∧ (∀ y ∈ pre, p y = false) ∧ p x = true ∧
      mutateFirst p f l = pre ++ f x :: post := by
  induction l with
  | nil => simp at h
  | cons a as ih =>
    by_cases ha : p a = true
    · exact ⟨[], a, as, rfl, by simp, ha, by simp [mutateFirst, ha]⟩
    · have h1 : ∃ x ∈ as, p x = true := by
        obtain ⟨x, hx, hpx⟩ := h
        rcases List.mem_cons.mp hx with rfl | hx1
        · exact absurd hpx ha
        · exact ⟨x, hx1, hpx⟩
      obtain ⟨pre, x, post, hl, hpre, hpx, hm⟩ := ih h1
      refine ⟨a :: pre, x, post, by simp [hl], ?_, hpx, by simp [mutateFirst, ha, hm]⟩
      intro y hy
      rcases List.mem_cons.mp hy with rfl | hy1
      · simpa using ha
      · exact hpre y hy1

theorem mutateFirst_eq_map (i : String) (f : CartLine → CartLine) (l : List CartLine)
    (hu : (l.map CartLine.id).Nodup) :
    mutateFirst (fun item => item.id == i) f l =
      l.map (fun x => if x.id = i then f x else x) := by
  induction l with
  | nil => rfl
  | cons a as ih =>
    rw [List.map_cons, List.nodup_cons] at hu
    by_cases ha : a.id = i
    · have hrest : ∀ y ∈ as, y.id ≠ i := by
        intro y hy hyi
        exact hu.1 (List.mem_map.mpr ⟨y, hy, hyi.trans ha.symm⟩)
      have htail : as.map (fun x => if x.id = i then f x else x) = as := by
        conv_rhs => rw [← List.map_id as]
        apply List.map_congr_left
        intro y hy
        simp [hrest y hy]
      simp [mutateFirst, ha, htail]
    · simp [mutateFirst, ha, ih hu.2]

theorem step_nodup (cart : Cart) (op : Index.Op) (hu : (cart.map CartLine.id).Nodup) :
    ((Index.step cart op).map CartLine.id).Nodup := by
  cases op with
  | addItem id name price quantity =>
    simp only [Index.step, Index.addItem]
    cases hf : cart.find? (fun item => item.id == id) with
    | some x =>
      simp only
      rw [mutateFirst_map_id (fun item => item.id == id)
        (fun existingItem => { existingItem with quantity := jsAdd existingItem.quantity quantity })
        (fun _ => rfl) cart]
      exact hu
    | none =>
      simp only
      rw [List.find?_eq_none] at hf
      rw [List.map_append, List.nodup_append]
      refine ⟨hu, by simp, ?_⟩
      intro a ha hb
      simp only [List.map_cons, List.map_nil, List.mem_singleton] at hb
      obtain ⟨y, hy, hya⟩ := List.mem_map.mp ha
      exact hf y hy (by simpa using hya.trans hb)
  | removeItem id =>
    simp only [Index.step, Index.removeItem]
    exact (List.Sublist.map _ (List.filter_sublist cart)).nodup hu
  | updateItemQuantity id quantity =>
    simp only [Index.step, Index.updateItemQuantity]
    cases hf : cart.find? (fun item => item.id == id) with
    | some x =>
      simp only
      rw [mutateFirst_map_id (fun item => item.id == id)
        (fun item => { item with quantity := quantity }) (fun _ => rfl) cart]
      exact hu
    | none => exact hu
  | getCart => exact hu

theorem foldl_step_nodup (ops : List Index.Op) (cart : Cart)
    (hu : (cart.map CartLine.id).Nodup) :
    ((ops.foldl Index.step cart).map CartLine.id).Nodup := by
  induction ops generalizing cart with
  | nil => exact hu
  | cons op ops ih => exact ih _ (step_nodup cart op hu)

theorem findOne_none (i : String) (coll : CartJs.Collection)
    (h : CartJs.findOne i coll = none) :
    coll.find? (fun item => item.id == i) = none := by
  induction coll with
  | nil => rfl
  | cons a as ih =>
    by_cases ha : a.id = i
    · simp [CartJs.findOne, ha] at h
    · simp only [CartJs.findOne, beq_iff_eq, ha, if_false, Option.map_eq_none'] at h
      simp [List.find?_cons, ha, ih h]

theorem findOne_some (i : String) (f : CartLine → CartLine) (coll : CartJs.Collection)
    (pos : Nat) (d : CartLine) (h : CartJs.findOne i coll = some (pos, d)) :
    coll.find? (fun item => item.id == i) = some d ∧
      coll.set pos (f d) = mutateFirst (fun item => item.id == i) f coll := by
  induction coll generalizing pos with
  | nil => simp [CartJs.findOne] at h
  | cons a as ih =>
    by_cases ha : a.id = i
    · simp only [CartJs.findOne, beq_iff_eq, ha, if_true, Option.some.injEq, Prod.mk.injEq] at h
      obtain ⟨rfl, rfl⟩ := h
      simp [mutateFirst, ha]
    · simp only [CartJs.findOne, beq_iff_eq, ha, if_false, Option.map_eq_some'] at h
      obtain ⟨r, hr, hrd⟩ := h
      obtain ⟨k, e⟩ := r
      simp only [Prod.mk.injEq] at hrd
      obtain ⟨rfl, rfl⟩ := hrd
      have ih1 := ih k hr
      simp [mutateFirst, ha, List.find?_cons, ih1.1, ih1.2]

theorem eraseP_eq_filter (i : String) (coll : List CartLine)
    (hu : (coll.map CartLine.id).Nodup) :
    coll.eraseP (fun d => d.id == i) = coll.filter (fun item => item.id != i) := by
  induction coll with
  | nil => rfl
  | cons a as ih =>
    rw [List.map_cons, List.nodup_cons] at hu
    by_cases ha : a.id = i
    · have hrest : as.filter (fun item => item.id != i) = as := by
        rw [List.filter_eq_self]
        intro y hy
        have : y.id ≠ i := fun hyi => hu.1 (List.mem_map.mpr ⟨y, hy, hyi.trans ha.symm⟩)
        simpa using this
      simp [List.eraseP_cons, ha, hrest]
    · simp [List.eraseP_cons, ha, ih hu.2]

/-! ## The in-memory cart -/

/-- C1, as the code behaves: on a cart with no line for `i`,
`addItem(i, name, price, q1)` followed by `addItem(i, name', price', q2)`
returns the stored cart, and the lines of that cart with id `i` are exactly one
line; its quantity is `q1 + q2` when that sum is at most 2^53 in absolute
value. -/
theorem addItem_twice_accumulates (cart : Cart) (i name name' : String)
    (price price' q1 q2 : Int) (h : ∀ l ∈ cart, l.id ≠ i)
    (hr : (q1 + q2).natAbs ≤ 2 ^ 53) :
    (Index.addItem (Index.addItem cart i name price q1).2 i name' price' q2).1 =
        (Index.addItem (Index.addItem cart i name price q1).2 i name' price' q2).2 ∧
      (Index.addItem (Index.addItem cart i name price q1).2 i name' price' q2).2.filter
          (fun l => l.id == i) =
        [{ id := i, name := name, price := price, quantity := q1 + q2 }] := by
  have hp : ∀ x ∈ cart, (fun item : CartLine => item.id == i) x = false := by
    intro x hx
    simpa using h x hx
  have h1 : (Index.addItem cart i name price q1).2 =
      cart ++ [{ id := i, name := name, price := price, quantity := q1 }] := by
    simp [Index.addItem, find?_absent cart i h]
  have hfind : (cart ++ [({ id := i, name := name, price := price, quantity := q1 } : CartLine)]).find?
      (fun item => item.id == i) = some { id := i, name := name, price := price, quantity := q1 } := by
    rw [List.find?_append, find?_absent cart i h]
    simp
  have hmut : mutateFirst (fun item => item.id == i)
      (fun existingItem => { existingItem with quantity := jsAdd existingItem.quantity q2 })
      (cart ++ [({ id := i, name := name, price := price, quantity := q1 } : CartLine)]) =
      cart ++ [{ id := i, name := name, price := price, quantity := q1 + q2 }] := by
    clear hfind h1
    induction cart with
    | nil => simp [mutateFirst, jsAdd_exact q1 q2 hr]
    | cons a as ih =>
      have ha : a.id ≠ i := h a (List.mem_cons_self a as)
      have ih1 := ih (fun l hl => h l (List.mem_cons_of_mem a hl))
        (fun x hx => hp x (List.mem_cons_of_mem a hx))
      simp [mutateFirst, ha, ih1]
  have h2 : Index.addItem (cart ++ [{ id := i, name := name, price := price, quantity := q1 }])
      i name' price' q2 =
      (cart ++ [{ id := i, name := name, price := price, quantity := q1 + q2 }],
        cart ++ [{ id := i, name := name, price := price, quantity := q1 + q2 }]) := by
    simp only [Index.addItem, hfind, hmut]
  rw [h1, h2]
  refine ⟨rfl, ?_⟩
  rw [List.filter_append, List.filter_eq_nil_iff.mpr (fun x hx => by simpa using h x hx)]
  simp

/-- Witness of C1 as amended: the cart `[B]` and two additions of `A`, of 2
and of 3. -/
theorem addItem_twice_accumulates_witness :
    (∀ l ∈ ([{ id := "B", name := "b", price := 5, quantity := 1 }] : Cart), l.id ≠ "A") ∧
      ((2 : Int) + 3).natAbs ≤ 2 ^ 53 ∧
      (Index.addItem (Index.addItem [{ id := "B", name := "b", price := 5, quantity := 1 }]
          "A" "a" 10 2).2 "A" "a2" 11 3).2.filter (fun l => l.id == "A") =
        [{ id := "A", name := "a", price := 10, quantity := 2 + 3 }] :=
  ⟨by decide, by decide,
    (addItem_twice_accumulates [{ id := "B", name := "b", price := 5, quantity := 1 }]
      "A" "a" "a2" 10 11 2 3 (by decide) (by decide)).2⟩

/-- C1 fails as stated: on the empty cart, `addItem("A", "a", 10, 2^53)`
followed by `addItem("A", "a", 10, 1)` leaves one line for `A` whose quantity
is 9007199254740992, not the sum 9007199254740993. -/
theorem addItem_twice_rounds :
    (∀ l ∈ ([] : Cart), l.id ≠ "A") ∧
      (Index.addItem (Index.addItem [] "A" "a" 10 9007199254740992).2 "A" "a" 10 1).2.filter
          (fun l => l.id == "A") =
        [{ id := "A", name := "a", price := 10, quantity := 9007199254740992 }] ∧
      (Index.addItem (Index.addItem [] "A" "a" 10 9007199254740992).2 "A" "a" 10 1).2.filter
          (fun l => l.id == "A") ≠
        [{ id := "A", name := "a", price := 10, quantity := 9007199254740992 + 1 }] := by
  decide

/-- C2: every cart reached from the empty cart by a finite sequence of
`addItem`, `removeItem`, `updateItemQuantity` and `getCart` calls has no two
lines with the same id. -/
theorem reachable_cart_unique_ids (ops : List Index.Op) :
    ((Index.run ops).map CartLine.id).Nodup :=
  foldl_step_nodup ops [] (by simp)

/-- C3: when no line of the cart has the given id, `updateItemQuantity` returns
`null` for every quantity (not a cart, not an empty array), the handler of
`PUT /api/cart/update/:id` answers 404 with its not-found message, and the
cart is left as it was. -/
theorem updateItemQuantity_absent (cart : Cart) (i : String) (q : Int)
    (h : ∀ l ∈ cart, l.id ≠ i) :
    Index.updateItemQuantity cart i q = (none, cart) ∧
      Index.putCartUpdate cart i q =
        ({ status := 404, body := Body.message "Item not found in cart" }, cart) := by
  have hu : Index.updateItemQuantity cart i q = (none, cart) := by
    simp [Index.updateItemQuantity, find?_absent cart i h]
  refine ⟨hu, ?_⟩
  simp [Index.putCartUpdate, hu]

/-- Witness of C3: the cart `[A]` and an update of `B`. -/
theorem updateItemQuantity_absent_witness :
    (∀ l ∈ ([{ id := "A", name := "a", price := 10, quantity := 2 }] : Cart), l.id ≠ "B") ∧
      Index.updateItemQuantity [{ id := "A", name := "a", price := 10, quantity := 2 }] "B" 7 =
        (none, [{ id := "A", name := "a", price := 10, quantity := 2 }]) :=
  ⟨by decide,
    (updateItemQuantity_absent [{ id := "A", name := "a", price := 10, quantity := 2 }]
      "B" 7 (by decide)).1⟩

/-- C4: on a cart without two lines of the same id that holds a line for `i`,
`updateItemQuantity(i, q)` with `q > 0` returns the stored cart and the handler
answers 200 with it; that cart is the old one, position by position, where the
line for `i` has quantity `q` with its id, name and price kept, and every other
line is the old line. -/
theorem updateItemQuantity_present (cart : Cart) (i : String) (q : Int)
    (hu : (cart.map CartLine.id).Nodup) (hp : ∃ l ∈ cart, l.id = i) (_hq : 0 < q) :
    Index.updateItemQuantity cart i q =
        (some (cart.map (fun l => if l.id = i then
            { id := l.id, name := l.name, price := l.price, quantity := q } else l)),
          cart.map (fun l => if l.id = i then
            { id := l.id, name := l.name, price := l.price, quantity := q } else l)) ∧
      Index.putCartUpdate cart i q =
        ({ status := 200, body := Body.cart (cart.map (fun l => if l.id = i then
            { id := l.id, name := l.name, price := l.price, quantity := q } else l)) },
          cart.map (fun l => if l.id = i then
            { id := l.id, name := l.name, price := l.price, quantity := q } else l)) := by
  obtain ⟨x, hx⟩ := find?_present cart i hp
  have hm := mutateFirst_eq_map i (fun item => { item with quantity := q }) cart hu
  have h1 : Index.updateItemQuantity cart i q =
      (some (cart.map (fun l => if l.id = i then
          { id := l.id, name := l.name, price := l.price, quantity := q } else l)),
        cart.map (fun l => if l.id = i then
          { id := l.id, name := l.name, price := l.price, quantity := q } else l)) := by
    simp only [Index.updateItemQuantity, hx, hm]
  refine ⟨h1, ?_⟩
  simp only [Index.putCartUpdate, h1]

/-- Witness of C4: the cart `[A, B]` and `updateItemQuantity("B", 4)`. -/
theorem updateItemQuantity_present_witness :
    Index.updateItemQuantity
        [{ id := "A", name := "a", price := 10, quantity := 2 },
          { id := "B", name := "b", price := 5, quantity := 1 }] "B" 4 =
      (some [{ id := "A", name := "a", price := 10, quantity := 2 },
          { id := "B", name := "b", price := 5, quantity := 4 }],
        [{ id := "A", name := "a", price := 10, quantity := 2 },
          { id := "B", name := "b", price := 5, quantity := 4 }]) :=
  (updateItemQuantity_present
    [{ id := "A", name := "a", price := 10, quantity := 2 },
      { id := "B", name := "b", price := 5, quantity := 1 }] "B" 4
    (by decide) ⟨{ id := "B", name := "b", price := 5, quantity := 1 }, by decide, rfl⟩
    (by decide)).1

/-- C5: `removeItem(i)` returns the stored cart; it holds no line with id `i`,
it is the old cart restricted to the lines whose id differs from `i` (same
order, same multiplicity), and `getCart` after it returns that cart and leaves
it stored. -/
theorem removeItem_filters (cart : Cart) (i : String) :
    (Index.removeItem cart i).1 = (Index.removeItem cart i).2 ∧
      (∀ l ∈ (Index.removeItem cart i).2, l.id ≠ i) ∧
      (Index.removeItem cart i).2 = cart.filter (fun l => decide (l.id ≠ i)) ∧
      (Index.removeItem cart i).2.Sublist cart ∧
      (∀ l ∈ cart, l.id ≠ i → l ∈ (Index.removeItem cart i).2) ∧
      Index.getCart (Index.removeItem cart i).2 =
        ((Index.removeItem cart i).2, (Index.removeItem cart i).2) := by
  refine ⟨rfl, ?_, ?_, ?_, ?_, rfl⟩
  · intro l hl
    simp only [Index.removeItem, List.mem_filter] at hl
    simpa using hl.2
  · simp only [Index.removeItem]
    apply List.filter_congr
    intro x _
    by_cases hx : x.id = i <;> simp [hx]
  · exact List.filter_sublist cart
  · intro l hl hne
    simp only [Index.removeItem, List.mem_filter]
    exact ⟨hl, by simpa using hne⟩

/-- C6: when no line of the cart has the given id, `removeItem` returns the
cart as it was and stores it, and the handler of `DELETE /api/cart/remove/:id`
answers 200 with it; and on every cart, removing the same id a second time
gives the cart of the first removal. -/
theorem removeItem_absent_noop (cart : Cart) (i : String) :
    ((∀ l ∈ cart, l.id ≠ i) →
        Index.removeItem cart i = (cart, cart) ∧
        Index.deleteCartRemove cart i = ({ status := 200, body := Body.cart cart }, cart)) ∧
      Index.removeItem (Index.removeItem cart i).2 i = Index.removeItem cart i := by
  constructor
  · intro h
    have hf : cart.filter (fun item => item.id != i) = cart := by
      rw [List.filter_eq_self]
      intro x hx
      simpa using h x hx
    simp [Index.removeItem, Index.deleteCartRemove, hf]
  · simp [Index.removeItem, List.filter_filter]

/-- Witness of C6: the cart `[A]` and the removal of `B`. -/
theorem removeItem_absent_noop_witness :
    (∀ l ∈ ([{ id := "A", name := "a", price := 10, quantity := 2 }] : Cart), l.id ≠ "B") ∧
      Index.removeItem [{ id := "A", name := "a", price := 10, quantity := 2 }] "B" =
        ([{ id := "A", name := "a", price := 10, quantity := 2 }],
          [{ id := "A", name := "a", price := 10, quantity := 2 }]) :=
  ⟨by decide,
    ((removeItem_absent_noop [{ id := "A", name := "a", price := 10, quantity := 2 }] "B").1
      (by decide)).1⟩

/-- C7, as the code behaves: on a cart that holds a line for `i`,
`updateItemQuantity(i, q)` with `q ≤ 0` does not fail: it returns the stored
cart and the handler answers 200 with it; in that cart the first line for `i`
has quantity `q` with its id, name and price kept, and all other lines are the
old lines in their places. -/
theorem updateItemQuantity_nonpositive (cart : Cart) (i : String) (q : Int)
    (hp : ∃ l ∈ cart, l.id = i) (_hq : q ≤ 0) :
    ∃ pre x post, cart = pre ++ x :: post ∧ (∀ y ∈ pre, y.id ≠ i) ∧ x.id = i ∧
      Index.updateItemQuantity cart i q =
        (some (pre ++ { id := x.id, name := x.name, price := x.price, quantity := q } :: post),
          pre ++ { id := x.id, name := x.name, price := x.price, quantity := q } :: post) ∧
      Index.putCartUpdate cart i q =
        ({ status := 200, body := Body.cart
            (pre ++ { id := x.id, name := x.name, price := x.price, quantity := q } :: post) },
          pre ++ { id := x.id, name := x.name, price := x.price, quantity := q } :: post) := by
  obtain ⟨x0, hx0⟩ := find?_present cart i hp
  obtain ⟨pre, x, post, hl, hpre, hpx, hm⟩ :=
    mutateFirst_split (fun item => item.id == i) (fun item => { item with quantity := q }) cart
      (by obtain ⟨l, hl, hi⟩ := hp; exact ⟨l, hl, by simpa using hi⟩)
  have h1 : Index.updateItemQuantity cart i q =
      (some (pre ++ { id := x.id, name := x.name, price := x.price, quantity := q } :: post),
        pre ++ { id := x.id, name := x.name, price := x.price, quantity := q } :: post) := by
    simp only [Index.updateItemQuantity, hx0, hm]
  refine ⟨pre, x, post, hl, ?_, by simpa using hpx, h1, ?_⟩
  · intro y hy
    simpa using hpre y hy
  · simp only [Index.putCartUpdate, h1]

/-- Witness of C7 as amended: the cart `[A]` and `updateItemQuantity("A", 0)`. -/
theorem updateItemQuantity_nonpositive_witness :
    ∃ pre x post,
      ([{ id := "A", name := "a", price := 10, quantity := 2 }] : Cart) = pre ++ x :: post ∧
      (∀ y ∈ pre, y.id ≠ "A") ∧ x.id = "A" ∧
      Index.updateItemQuantity [{ id := "A", name := "a", price := 10, quantity := 2 }] "A" 0 =
        (some (pre ++ { id := x.id, name := x.name, price := x.price, quantity := 0 } :: post),
          pre ++ { id := x.id, name := x.name, price := x.price, quantity := 0 } :: post) ∧
      Index.putCartUpdate [{ id := "A", name := "a", price := 10, quantity := 2 }] "A" 0 =
        ({ status := 200, body := Body.cart
            (pre ++ { id := x.id, name := x.name, price := x.price, quantity := 0 } :: post) },
          pre ++ { id := x.id, name := x.name, price := x.price, quantity := 0 } :: post) :=
  updateItemQuantity_nonpositive [{ id := "A", name := "a", price := 10, quantity := 2 }] "A" 0
    ⟨{ id := "A", name := "a", price := 10, quantity := 2 }, by decide, rfl⟩ (by decide)

/-- C7 fails as stated: on the cart `[A]` with quantity 2,
`updateItemQuantity("A", 0)` is answered with 200 and the cart, and the stored
line for `A` has quantity 0, so the cart is not the one before the call. -/
theorem updateItemQuantity_zero_changes_cart :
    Index.putCartUpdate [{ id := "A", name := "a", price := 10, quantity := 2 }] "A" 0 =
        ({ status := 200, body := Body.cart [{ id := "A", name := "a", price := 10, quantity := 0 }] },
          [{ id := "A", name := "a", price := 10, quantity := 0 }]) ∧
      (Index.updateItemQuantity [{ id := "A", name := "a", price := 10, quantity := 2 }] "A" 0).2 ≠
        [{ id := "A", name := "a", price := 10, quantity := 2 }] := by
  decide

/-- C8, as the code behaves: a call `addItem(i, name, price, quantity)` with
`quantity ≤ 0` or `price < 0` does not fail: the handler of
`POST /api/cart/add` answers 200 with the stored cart, which is the old cart
with the line `{i, name, price, quantity}` appended when no line had id `i`,
and otherwise, when the sum of the old quantity of the first line for `i` and
`quantity` is at most 2^53 in absolute value, the old cart with that sum as the
quantity of that line; and a cart reached from the empty one can hold a line of
quantity below 1 and of negative price. -/
theorem addItem_unvalidated (cart : Cart) (i name : String) (price quantity : Int)
    (_h : quantity ≤ 0 ∨ price < 0) :
    (Index.postCartAdd cart i name price quantity).1 =
        { status := 200, body := Body.cart (Index.postCartAdd cart i name price quantity).2 } ∧
      (Index.postCartAdd cart i name price quantity).2 =
        (Index.addItem cart i name price quantity).2 ∧
      ((∀ l ∈ cart, l.id ≠ i) →
        (Index.addItem cart i name price quantity).2 =
          cart ++ [{ id := i, name := name, price := price, quantity := quantity }]) ∧
      ((∃ l ∈ cart, l.id = i) →
        ∃ pre x post, cart = pre ++ x :: post ∧ (∀ y ∈ pre, y.id ≠ i) ∧ x.id = i ∧
          ((x.quantity + quantity).natAbs ≤ 2 ^ 53 →
            (Index.addItem cart i name price quantity).2 =
              pre ++ { id := x.id, name := x.name, price := x.price,
                       quantity := x.quantity + quantity } :: post)) ∧
      (∃ ops, ∃ l ∈ Index.run ops, l.quantity < 1 ∧ l.price < 0) := by
  refine ⟨?_, rfl, ?_, ?_, ?_⟩
  · simp only [Index.postCartAdd, Index.addItem]
    cases cart.find? (fun item => item.id == i) <;> rfl
  · intro h
    simp [Index.addItem, find?_absent cart i h]
  · intro hp
    obtain ⟨x0, hx0⟩ := find?_present cart i hp
    obtain ⟨pre, x, post, hl, hpre, hpx, hm⟩ :=
      mutateFirst_split (fun item => item.id == i)
        (fun existingItem => { existingItem with quantity := jsAdd existingItem.quantity quantity })
        cart (by obtain ⟨l, hl, hi⟩ := hp; exact ⟨l, hl, by simpa using hi⟩)
    have hadd : (Index.addItem cart i name price quantity).2 =
        pre ++ { id := x.id, name := x.name, price := x.price,
                 quantity := jsAdd x.quantity quantity } :: post := by
      simp only [Index.addItem, hx0, hm]
    refine ⟨pre, x, post, hl, ?_, by simpa using hpx, ?_⟩
    · intro y hy
      simpa using hpre y hy
    · intro hr
      rw [hadd, jsAdd_exact x.quantity quantity hr]
  · exact ⟨[Index.Op.addItem "A" "a" (-1) 0],
      { id := "A", name := "a", price := -1, quantity := 0 }, by decide, by decide, by decide⟩

/-- Witness of C8 as amended: `addItem("A", "a", 10, 0)` on the empty cart. -/
theorem addItem_unvalidated_witness :
    ((0 : Int) ≤ 0 ∨ (10 : Int) < 0) ∧
      (Index.postCartAdd [] "A" "a" 10 0).1 =
        { status := 200, body := Body.cart (Index.postCartAdd [] "A" "a" 10 0).2 } :=
  ⟨by decide, (addItem_unvalidated [] "A" "a" 10 0 (by decide)).1⟩

/-- C8 fails as stated: on the empty cart `addItem("A", "a", 10, 0)` and
`addItem("A", "a", -1, 1)` are both answered with 200 and the line is stored,
and the cart reached by the first call holds a line of quantity 0. -/
theorem addItem_zero_quantity_accepted :
    Index.postCartAdd [] "A" "a" 10 0 =
        ({ status := 200, body := Body.cart [{ id := "A", name := "a", price := 10, quantity := 0 }] },
          [{ id := "A", name := "a", price := 10, quantity := 0 }]) ∧
      Index.postCartAdd [] "A" "a" (-1) 1 =
        ({ status := 200, body := Body.cart [{ id := "A", name := "a", price := -1, quantity := 1 }] },
          [{ id := "A", name := "a", price := -1, quantity := 1 }]) ∧
      Index.run [Index.Op.addItem "A" "a" 10 0] =
        [{ id := "A", name := "a", price := 10, quantity := 0 }] ∧
      ¬ (∀ l ∈ Index.run [Index.Op.addItem "A" "a" 10 0], 1 ≤ l.quantity ∧ 0 ≤ l.price) := by
  decide

/-! ## Payment -/

/-- C9, the code at the cart of the scenario: for the cart
`[{A, 10, 2}, {B, 5, 1}]` the sum of price times quantity is 25; the
`/mpesa/payments` handler, for every cart and pass key, throws on the unbound
name `Mpesa` and hands no request to the provider; and the request it was
written to hand over, the constant `payload`, carries the amount `"100"`,
which is not `"25"`. -/
theorem mpesa_hands_over_nothing :
    Index.specTotal [{ id := "A", name := "a", price := 10, quantity := 2 },
        { id := "B", name := "b", price := 5, quantity := 1 }] = 25 ∧
      (∀ (cart : Cart) (passKey : Option String),
        Index.postMpesaPayments cart passKey =
          Index.MpesaOutcome.threw "ReferenceError: Mpesa is not defined") ∧
      (∀ (passKey : Option String), (Index.payload passKey).amount = "100") ∧
      (Index.payload none).amount ≠ "25" := by
  refine ⟨by decide, fun _ _ => ?_, fun _ => rfl, by decide⟩
  have hs : ¬ ("Mpesa" ∈ Index.scope) := by decide
  simp only [Index.postMpesaPayments, hs, if_false]

/-! ## The two carts side by side -/

/-- C10, as the code behaves: started on the same lines, with no two of the
same id and each with a non-empty id and name, the operations of `cart.js` and
of `index.js` leave the same lines stored: `addItem` with the same arguments,
the id and name non-empty, `removeItem` with the same id, `updateItemQuantity`
with the same arguments, and `getCart`; `updateItemQuantity` returns `null` in
the one exactly when it does in the other.  When `addItem` is given an id that
no line has and the id or the name is empty, `cart.js` throws and stores
nothing, while `index.js` stores the line. -/
theorem cartjs_matches_index (lines : List CartLine) (hu : (lines.map CartLine.id).Nodup)
    (hv : ∀ l ∈ lines, l.id ≠ "" ∧ l.name ≠ "")
    (i name : String) (price quantity : Int) (j : String) (k : String) (q : Int) :
    (i ≠ "" → name ≠ "" →
        (CartJs.addItem lines i name price quantity).2 =
          (Index.addItem lines i name price quantity).2) ∧
      ((∀ l ∈ lines, l.id ≠ i) → i = "" ∨ name = "" →
        CartJs.addItem lines i name price quantity =
            (CartJs.Result.thrown "ValidationError", lines) ∧
          (Index.addItem lines i name price quantity).2 =
            lines ++ [{ id := i, name := name, price := price, quantity := quantity }]) ∧
      CartJs.removeItem lines j = (Index.removeItem lines j).2 ∧
      (CartJs.updateItemQuantity lines k q).2 = (Index.updateItemQuantity lines k q).2 ∧
      ((CartJs.updateItemQuantity lines k q).1 = CartJs.Result.returned none ↔
        (Index.updateItemQuantity lines k q).1 = none) ∧
      (CartJs.getCart lines).2 = (Index.getCart lines).2 ∧
      (CartJs.getCart lines).1 = (Index.getCart lines).1 := by
  have hfound : ∀ (a : String) (pos : Nat) (d : CartLine),
      CartJs.findOne a lines = some (pos, d) → d.id ≠ "" ∧ d.name ≠ "" := by
    intro a pos d hf
    have h1 := (findOne_some a (fun x => x) lines pos d hf).1
    exact hv d (List.mem_of_find?_eq_some h1)
  refine ⟨?_, ?_, ?_, ?_, ?_, rfl, rfl⟩
  · intro hi hn
    cases hf : CartJs.findOne i lines with
    | none =>
      simp [CartJs.addItem, Index.addItem, hf, findOne_none i lines hf, CartJs.saveNew,
        CartJs.validate, hi, hn]
    | some r =>
      obtain ⟨pos, d⟩ := r
      obtain ⟨h1, h2⟩ := findOne_some i
        (fun existingItem => { existingItem with quantity := jsAdd existingItem.quantity quantity })
        lines pos d hf
      obtain ⟨hd1, hd2⟩ := hfound i pos d hf
      simp [CartJs.addItem, Index.addItem, hf, h1, h2, CartJs.saveExisting, CartJs.validate,
        hd1, hd2]
  · intro habs hempty
    have hnone : CartJs.findOne i lines = none := by
      cases hf : CartJs.findOne i lines with
      | none => rfl
      | some r =>
        obtain ⟨pos, d⟩ := r
        have h1 := (findOne_some i (fun x => x) lines pos d hf).1
        rw [find?_absent lines i habs] at h1
        exact absurd h1 (by simp)
    refine ⟨?_, by simp [Index.addItem, find?_absent lines i habs]⟩
    have hval : CartJs.validate
        { id := i, name := name, price := price, quantity := quantity } = false := by
      rcases hempty with h0 | h0 <;> simp [CartJs.validate, h0]
    simp [CartJs.addItem, hnone, CartJs.saveNew, hval]
  · simp only [CartJs.removeItem, CartJs.findOneAndDelete, Index.removeItem]
    exact eraseP_eq_filter j lines hu
  · cases hf : CartJs.findOne k lines with
    | none => simp [CartJs.updateItemQuantity, Index.updateItemQuantity, hf, findOne_none k lines hf]
    | some r =>
      obtain ⟨pos, d⟩ := r
      obtain ⟨h1, h2⟩ := findOne_some k (fun item => { item with quantity := q }) lines pos d hf
      obtain ⟨hd1, hd2⟩ := hfound k pos d hf
      simp [CartJs.updateItemQuantity, Index.updateItemQuantity, hf, h1, h2,
        CartJs.saveExisting, CartJs.validate, hd1, hd2]
  · cases hf : CartJs.findOne k lines with
    | none => simp [CartJs.updateItemQuantity, Index.updateItemQuantity, hf, findOne_none k lines hf]
    | some r =>
      obtain ⟨pos, d⟩ := r
      obtain ⟨h1, _⟩ := findOne_some k (fun item => { item with quantity := q }) lines pos d hf
      obtain ⟨hd1, hd2⟩ := hfound k pos d hf
      simp [CartJs.updateItemQuantity, Index.updateItemQuantity, hf, h1,
        CartJs.saveExisting, CartJs.validate, hd1, hd2]

/-- Witness of C10 as amended: the lines `[A, B]`, adding to `A`, removing
`B`, updating `B`. -/
theorem cartjs_matches_index_witness :
    (([{ id := "A", name := "a", price := 10, quantity := 2 },
        { id := "B", name := "b", price := 5, quantity := 1 }] : List CartLine).map
          CartLine.id).Nodup ∧
      (∀ l ∈ ([{ id := "A", name := "a", price := 10, quantity := 2 },
        { id := "B", name := "b", price := 5, quantity := 1 }] : List CartLine),
          l.id ≠ "" ∧ l.name ≠ "") ∧
      (CartJs.addItem [{ id := "A", name := "a", price := 10, quantity := 2 },
        { id := "B", name := "b", price := 5, quantity := 1 }] "A" "a" 10 3).2 =
      (Index.addItem [{ id := "A", name := "a", price := 10, quantity := 2 },
        { id := "B", name := "b", price := 5, quantity := 1 }] "A" "a" 10 3).2 :=
  ⟨by decide, by decide,
    (cartjs_matches_index [{ id := "A", name := "a", price := 10, quantity := 2 },
      { id := "B", name := "b", price := 5, quantity := 1 }] (by decide) (by decide)
    "A" "a" 10 3 "B" "B" 4).1 (by decide) (by decide)⟩

/-- C10 fails as stated: on the one line `[A]`, `addItem("B", "", 5, 1)` of
`cart.js` throws the validation error and leaves `[A]` stored, while that of
`index.js` stores `[A, B]`. -/
theorem cartjs_rejects_empty_name :
    (([{ id := "A", name := "a", price := 10, quantity := 2 }] : List CartLine).map
        CartLine.id).Nodup ∧
      CartJs.addItem [{ id := "A", name := "a", price := 10, quantity := 2 }] "B" "" 5 1 =
        (CartJs.Result.thrown "ValidationError",
          [{ id := "A", name := "a", price := 10, quantity := 2 }]) ∧
      (Index.addItem [{ id := "A", name := "a", price := 10, quantity := 2 }] "B" "" 5 1).2 =
        [{ id := "A", name := "a", price := 10, quantity := 2 },
          { id := "B", name := "", price := 5, quantity := 1 }] ∧
      (CartJs.addItem [{ id := "A", name := "a", price := 10, quantity := 2 }] "B" "" 5 1).2 ≠
        (Index.addItem [{ id := "A", name := "a", price := 10, quantity := 2 }] "B" "" 5 1).2 := by
  decide

end CartBackend
